import Mathlib

/-!
# NewsPulse — verification of the ingestion/enrichment pipeline and risk scan

A shallow embedding of the NewsPulse backend (Python) into Lean 4.

Strings are modelled as `List Char` (`Str`); Python's `hashlib.md5` is
implemented per RFC 1321 over byte lists with `Nat` arithmetic mod 2^32;
the Elasticsearch store, HTTP session, HTML parser and the ML models are
external collaborators and appear as function-valued fields of explicit
environment structures, exactly at the call boundaries the Python code uses.
Exceptions raised by collaborators are modelled as `Option`/`Except` values.
-/

set_option maxRecDepth 100000

namespace NewsPulse

/-- Python strings, modelled as lists of characters. -/
abbrev Str := List Char

/-- Shorthand: the character list of a string literal. -/
def str (s : String) : Str := s.data

/-- Python `str.split()` / `str.strip()` whitespace (ASCII part). -/
def isPySpace (c : Char) : Bool :=
  c = ' ' || c = '\t' || c = '\n' || c = '\r' || c = Char.ofNat 11 || c = Char.ofNat 12

/-- Python `str.strip()`: drop whitespace from both ends. -/
def pyStrip (s : Str) : Str :=
  ((s.dropWhile isPySpace).reverse.dropWhile isPySpace).reverse

/-- Python `str.lower()` (ASCII case mapping). -/
def pyLower (s : Str) : Str := s.map Char.toLower

/-- Does `sub` occur as a contiguous substring of `s` (Python `sub in s`)? -/
def containsSub (sub : Str) : Str → Bool
  | [] => sub.isEmpty
  | c :: rest => List.isPrefixOf sub (c :: rest) || containsSub sub rest

/-! ## `generate_id` — `hashlib.md5(url.encode('utf-8')).hexdigest()`
(src/backend/scrapers/rss_scraper.py, lines 70-72).  `hashlib.md5` is the
MD5 algorithm of RFC 1321, reproduced here over `Nat` byte lists. -/

/-- 2^32, the word modulus of MD5. -/
def M32 : Nat := 4294967296

namespace MD5

/-- The 64 sine-derived round constants of RFC 1321. -/
def K : List Nat :=
  [0xd76aa478, 0xe8c7b756, 0x242070db, 0xc1bdceee,
   0xf57c0faf, 0x4787c62a, 0xa8304613, 0xfd469501,
   0x698098d8, 0x8b44f7af, 0xffff5bb1, 0x895cd7be,
   0x6b901122, 0xfd987193, 0xa679438e, 0x49b40821,
   0xf61e2562, 0xc040b340, 0x265e5a51, 0xe9b6c7aa,
   0xd62f105d, 0x02441453, 0xd8a1e681, 0xe7d3fbc8,
   0x21e1cde6, 0xc33707d6, 0xf4d50d87, 0x455a14ed,
   0xa9e3e905, 0xfcefa3f8, 0x676f02d9, 0x8d2a4c8a,
   0xfffa3942, 0x8771f681, 0x6d9d6122, 0xfde5380c,
   0xa4beea44, 0x4bdecfa9, 0xf6bb4b60, 0xbebfbc70,
   0x289b7ec6, 0xeaa127fa, 0xd4ef3085, 0x04881d05,
   0xd9d4d039, 0xe6db99e5, 0x1fa27cf8, 0xc4ac5665,
   0xf4292244, 0x432aff97, 0xab9423a7, 0xfc93a039,
   0x655b59c3, 0x8f0ccc92, 0xffeff47d, 0x85845dd1,
   0x6fa87e4f, 0xfe2ce6e0, 0xa3014314, 0x4e0811a1,
   0xf7537e82, 0xbd3af235, 0x2ad7d2bb, 0xeb86d391]

/-- The per-round left-rotation amounts of RFC 1321. -/
def S : List Nat :=
  [7, 12, 17, 22, 7, 12, 17, 22, 7, 12, 17, 22, 7, 12, 17, 22,
   5, 9, 14, 20, 5, 9, 14, 20, 5, 9, 14, 20, 5, 9, 14, 20,
   4, 11, 16, 23, 4, 11, 16, 23, 4, 11, 16, 23, 4, 11, 16, 23,
   6, 10, 15, 21, 6, 10, 15, 21, 6, 10, 15, 21, 6, 10, 15, 21]

/-- 32-bit left rotation (x assumed < 2^32). -/
def rotl (x n : Nat) : Nat := x * 2 ^ n % M32 + x / 2 ^ (32 - n)

/-- Bitwise complement within 32 bits (x assumed < 2^32). -/
def compl32 (x : Nat) : Nat := M32 - 1 - x

/-- The running MD5 state (A, B, C, D). -/
abbrev St := Nat × Nat × Nat × Nat

/-- One of the 64 MD5 rounds; `w` gives the 16 message words of the chunk. -/
def md5Round (w : Nat → Nat) (st : St) (i : Nat) : St :=
  let a := st.1; let b := st.2.1; let c := st.2.2.1; let d := st.2.2.2
  let fg : Nat × Nat :=
    if i < 16 then (b &&& c ||| compl32 b &&& d, i)
    else if i < 32 then (d &&& b ||| compl32 d &&& c, (5 * i + 1) % 16)
    else if i < 48 then (Nat.xor b (Nat.xor c d), (3 * i + 5) % 16)
    else (Nat.xor c (b ||| compl32 d), (7 * i) % 16)
  let f := (fg.1 + a + K.getD i 0 + w fg.2) % M32
  (d, (b + rotl f (S.getD i 0)) % M32, b, c)

/-- The `j`-th little-endian 32-bit word of a 64-byte chunk. -/
def word (chunk : List Nat) (j : Nat) : Nat :=
  chunk.getD (4 * j) 0 + chunk.getD (4 * j + 1) 0 * 256 +
    chunk.getD (4 * j + 2) 0 * 65536 + chunk.getD (4 * j + 3) 0 * 16777216

/-- Process one 64-byte chunk: 64 rounds, then add into the state. -/
def processChunk (st : St) (chunk : List Nat) : St :=
  let r := (List.range 64).foldl (md5Round (word chunk)) st
  ((st.1 + r.1) % M32, (st.2.1 + r.2.1) % M32,
   (st.2.2.1 + r.2.2.1) % M32, (st.2.2.2 + r.2.2.2) % M32)

/-- Split a byte list into 64-byte chunks.  The fuel argument (instantiated
with the list's length, an upper bound on the number of chunks) keeps the
recursion structural, so the kernel can evaluate it. -/
def chunksAux : Nat → List Nat → List (List Nat)
  | 0, _ => []
  | _, [] => []
  | fuel + 1, b :: rest => (b :: rest).take 64 :: chunksAux fuel ((b :: rest).drop 64)

/-- Fold `processChunk` over a padded message, 64 bytes at a time. -/
def processChunks (st : St) (bytes : List Nat) : St :=
  (chunksAux bytes.length bytes).foldl processChunk st

/-- `n` as `w` little-endian bytes. -/
def toLE (n w : Nat) : List Nat := (List.range w).map fun i => n / 256 ^ i % 256

/-- MD5 padding: append 0x80, zero-fill to 56 mod 64, then the 64-bit
little-endian bit length. -/
def padBytes (msg : List Nat) : List Nat :=
  let z := (120 - (msg.length + 1) % 64) % 64
  msg ++ [128] ++ List.replicate z 0 ++ toLE (8 * msg.length % 2 ^ 64) 8

/-- The 16-byte MD5 digest of a byte list. -/
def md5Bytes (msg : List Nat) : List Nat :=
  let st := processChunks (0x67452301, 0xefcdab89, 0x98badcfe, 0x10325476)
    (padBytes msg)
  toLE st.1 4 ++ toLE st.2.1 4 ++ toLE st.2.2.1 4 ++ toLE st.2.2.2 4

end MD5

/-- The lowercase hexadecimal alphabet. -/
def hexAlphabet : Str := str "0123456789abcdef"

/-- A byte as two lowercase hex characters. -/
def hexOfByte (b : Nat) : Str :=
  [hexAlphabet.getD (b / 16 % 16) '0', hexAlphabet.getD (b % 16) '0']

/-- `bytes.hex()` / `hexdigest`: bytes to lowercase hex. -/
def hexOfBytes (bs : List Nat) : Str := (bs.map hexOfByte).flatten

/-- UTF-8 encoding of one code point (`str.encode('utf-8')`, per character). -/
def utf8Char (c : Char) : List Nat :=
  let n := c.toNat
  if n < 128 then [n]
  else if n < 2048 then [192 + n / 64, 128 + n % 64]
  else if n < 65536 then [224 + n / 4096, 128 + n / 64 % 64, 128 + n % 64]
  else [240 + n / 262144, 128 + n / 4096 % 64, 128 + n / 64 % 64, 128 + n % 64]

/-- Python `s.encode('utf-8')`. -/
def utf8Encode (s : Str) : List Nat := (s.map utf8Char).flatten

/-- `generate_id(url)`: `hashlib.md5(url.encode('utf-8')).hexdigest()`
(rss_scraper.py lines 70-72). -/
def generate_id (url : Str) : Str := hexOfBytes (MD5.md5Bytes (utf8Encode url))

-- RFC 1321 / hashlib test vectors, checked against CPython's hashlib.
example : generate_id (str "") = str "d41d8cd98f00b204e9800998ecf8427e" := by decide
example : generate_id (str "a") = str "0cc175b9c0f1b6a831c399e269772661" := by decide
example : generate_id (str "http://a.test/1") =
    str "9758a08f62aa66bb1ad66f56554b2dc5" := by decide

/-! ### Supporting lemmas about `generate_id`'s shape -/

lemma length_toLE (n w : Nat) : (MD5.toLE n w).length = w := by
  simp [MD5.toLE]

lemma length_md5Bytes (msg : List Nat) : (MD5.md5Bytes msg).length = 16 := by
  simp [MD5.md5Bytes, length_toLE]

lemma length_hexOfBytes (bs : List Nat) : (hexOfBytes bs).length = 2 * bs.length := by
  induction bs with
  | nil => rfl
  | cons b rest ih =>
    simp only [hexOfBytes, List.map_cons, List.flatten_cons, List.length_append] at *
    simp [hexOfByte, ih]
    omega

lemma getD_mem_of_default_mem {α : Type} (l : List α) (i : Nat) (d : α)
    (h : d ∈ l) : l.getD i d ∈ l := by
  rcases Nat.lt_or_ge i l.length with hi | hi
  · rw [List.getD_eq_getElem l d hi]
    exact List.getElem_mem hi
  · rw [List.getD_eq_default l d hi]
    exact h

lemma hexOfByte_mem (b : Nat) : ∀ c ∈ hexOfByte b, c ∈ hexAlphabet := by
  intro c hc
  simp only [hexOfByte, List.mem_cons, List.not_mem_nil, or_false] at hc
  rcases hc with h | h <;>
    · subst h
      exact getD_mem_of_default_mem _ _ _ (by decide)

lemma hexOfBytes_mem (bs : List Nat) : ∀ c ∈ hexOfBytes bs, c ∈ hexAlphabet := by
  intro c hc
  simp only [hexOfBytes, List.mem_flatten, List.mem_map] at hc
  obtain ⟨l, ⟨b, _, rfl⟩, hcl⟩ := hc
  exact hexOfByte_mem b c hcl

/-- C7: for every URL string `u`, `generate_id u` is deterministic — repeated
calls yield the identical value — and the result is a fixed-length hash: a
32-character string all of whose characters are lowercase hexadecimal digits,
stable for that URL string. -/
theorem generate_id_deterministic_fixed_hex (u : Str) :
    generate_id u = generate_id u ∧
    (generate_id u).length = 32 ∧
    ∀ c ∈ generate_id u, c ∈ hexAlphabet := by
  refine ⟨rfl, ?_, ?_⟩
  · rw [generate_id, length_hexOfBytes, length_md5Bytes]
  · exact hexOfBytes_mem _

/-! ## Title utilities (rss_scraper.py lines 74-111, 156-164) -/

/-- Accumulator pass behind `pySplitWs`. -/
def splitWsAux : Str → Str → List Str
  | [], acc => if acc.isEmpty then [] else [acc.reverse]
  | c :: rest, acc =>
    if isPySpace c then
      if acc.isEmpty then splitWsAux rest [] else acc.reverse :: splitWsAux rest []
    else splitWsAux rest (c :: acc)

/-- Python `str.split()` with no argument: whitespace runs, no empty pieces. -/
def pySplitWs (s : Str) : List Str := splitWsAux s []

/-- Python `sep.join(words)`. -/
def joinWith (sep : Str) : List Str → Str
  | [] => []
  | [w] => w
  | w :: rest => w ++ sep ++ joinWith sep rest

/-- `re.sub(r'\s*-\s*[^-]*$', '', s)`: the pattern's one possible match runs
from the whitespace run before the last `-` to the end, so the substitution
drops that region; a string with no `-` is unchanged. -/
def subDashSuffix (s : Str) : Str :=
  match s.reverse.dropWhile (· != '-') with
  | [] => s
  | _ :: restRev => (restRev.dropWhile isPySpace).reverse

/-- `re.sub(r'^\s*[|\-]\s*', '', s)`: leading whitespace, a `|` or `-`, and
following whitespace are dropped when present; otherwise unchanged. -/
def subLeadingBar (s : Str) : Str :=
  match s.dropWhile isPySpace with
  | c :: rest => if c = '|' || c = '-' then rest.dropWhile isPySpace else s
  | [] => s

/-- `re.sub(r'\s*[|\-]\s*$', '', s)`: the mirror image at the end. -/
def subTrailingBar (s : Str) : Str :=
  match s.reverse.dropWhile isPySpace with
  | c :: restRev =>
    if c = '|' || c = '-' then (restRev.dropWhile isPySpace).reverse else s
  | [] => s

/-- Python `s.rsplit(' ', 1)[0]`: the part before the last space, or all of
`s` when it has no space. -/
def rsplitSpaceHead (s : Str) : Str :=
  match s.reverse.dropWhile (· != ' ') with
  | [] => s
  | _ :: restRev => restRev.reverse

/-- `clean_title` (rss_scraper.py lines 83-91). -/
def clean_title (title : Str) : Str :=
  if title.isEmpty then []
  else
    let t := joinWith (str " ") (pySplitWs title)
    let t := subTrailingBar (subLeadingBar (subDashSuffix t))
    let t := if 200 < t.length then rsplitSpaceHead (t.take 200) ++ str "..." else t
    pyStrip t

/-- The generic-string blacklist of `is_valid_title`. -/
def invalid_titles : List Str :=
  [str "untitled", str "no title", str "article", str "news",
   str "page not found", str "error", str "404", str "access denied"]

/-- `is_valid_title` (rss_scraper.py lines 93-98). -/
def is_valid_title (title : Str) : Bool :=
  if title.isEmpty || (pyStrip title).length < 10 then false
  else
    let title_lower := pyStrip (pyLower title)
    !(invalid_titles.any fun inv => containsSub inv title_lower)

-- Spot checks of the embedding against the Python predicate.
example : is_valid_title (str "untitled") = false := by decide
example : is_valid_title (str "A Perfectly Fine Headline") = true := by decide
example : is_valid_title (str "short") = false := by decide

/-- Sentence ends for `re.split(r'[.!?]+', text)`. -/
def isSentEnd (c : Char) : Bool := c = '.' || c = '!' || c = '?'

/-- `re.split(r'[.!?]+', text)`: pieces between runs of sentence-end
punctuation, empty pieces kept at the ends.  The Bool flag records whether
the scan sits inside a separator run. -/
def splitSentAux : Str → Str → Bool → List Str
  | [], acc, inSep => if inSep then [[]] else [acc.reverse]
  | c :: rest, acc, inSep =>
    if isSentEnd c then
      if inSep then splitSentAux rest [] true
      else acc.reverse :: splitSentAux rest [] true
    else splitSentAux rest (c :: acc) false

/-- `re.split(r'[.!?]+', text)`. -/
def splitSent (s : Str) : List Str := splitSentAux s [] false

example : splitSent (str "a.b!!c?d.") =
    [str "a", str "b", str "c", str "d", str ""] := by decide

/-- The boilerplate lead-ins rejected by `extract_title_from_content`. -/
def leadIns : List Str :=
  [str "the article", str "this article", str "according to",
   str "in a", str "on ", str "at "]

/-- `sentence.lower().startswith((...))` over the lead-in tuple. -/
def startsWithLeadIn (s : Str) : Bool := leadIns.any fun p => List.isPrefixOf p s

/-- The sentence loop of `extract_title_from_content`. -/
def firstContentTitle : List Str → Option Str
  | [] => none
  | sent :: rest =>
    let sent := pyStrip sent
    if 15 ≤ sent.length && sent.length ≤ 150 && !startsWithLeadIn (pyLower sent) then
      let cleaned := clean_title sent
      if is_valid_title cleaned then some cleaned else firstContentTitle rest
    else firstContentTitle rest

/-- `extract_title_from_content` (rss_scraper.py lines 156-164). -/
def extract_title_from_content (text : Str) : Option Str :=
  if text.isEmpty || text.length < 50 then none
  else firstContentTitle ((splitSent text).take 5)

/-- Remove every occurrence of `sub` (Python `s.replace(sub, '')`), scanning
left to right.  The fuel argument (instantiated with the string's length)
keeps the recursion structural for kernel evaluation. -/
def removeSubAux (sub : Str) : Nat → Str → Str
  | 0, s => s
  | _ + 1, [] => []
  | fuel + 1, c :: rest =>
    if !sub.isEmpty && List.isPrefixOf sub (c :: rest) then
      removeSubAux sub fuel ((c :: rest).drop sub.length)
    else c :: removeSubAux sub fuel rest

/-- Python `s.replace(sub, '')`. -/
def removeAllSub (sub s : Str) : Str := removeSubAux sub s.length s

example : removeAllSub (str "www.") (str "https://www.a.test/x") =
    str "https://a.test/x" := by decide

/-- Python `s.split(sep)` for a one-character separator, empties kept. -/
def splitCharAux (sep : Char) : Str → Str → List Str
  | [], acc => [acc.reverse]
  | c :: rest, acc =>
    if c = sep then acc.reverse :: splitCharAux sep rest []
    else splitCharAux sep rest (c :: acc)

/-- Python `s.split(sep)` for a one-character separator. -/
def splitChar (sep : Char) (s : Str) : List Str := splitCharAux sep s []

/-- Python `max(parts, key=len)`: the first part of maximal length. -/
def firstMaxByLen : List Str → Str
  | [] => []
  | [w] => w
  | w :: rest =>
    let m := firstMaxByLen rest
    if w.length < m.length then m else w

/-- Python `str.capitalize()`: first character uppercased, the rest lowered. -/
def pyCapitalize : Str → Str
  | [] => []
  | c :: rest => c.toUpper :: pyLower rest

/-- `extract_title_from_url` (rss_scraper.py lines 100-111). -/
def extract_title_from_url (url : Str) : Str :=
  let clean_url :=
    removeAllSub (str "www.")
      (removeAllSub (str "http://") (removeAllSub (str "https://") url))
  let parts := splitChar '/' clean_url
  if 2 ≤ parts.length then
    let meaningful := (parts.drop 1).filter fun p =>
      4 < p.length && !containsSub (str "index") p && !containsSub (str "html") p
    if !meaningful.isEmpty then
      let title_part := firstMaxByLen meaningful
      joinWith (str " ")
        ((pySplitWs (title_part.map fun c =>
          if c = '-' || c = '_' then ' ' else c)).map pyCapitalize)
    else str "News Article"
  else str "News Article"

example : extract_title_from_url (str "https://www.a.test/some-long-slug/x") =
    str "Some Long Slug" := by decide

/-- `truncate_text` (rss_scraper.py lines 74-81).  The Python comparison
`last_period > max_chars * 0.8` is over floats; for the one call site
(`max_tokens = 800`, so `max_chars * 0.8` evaluates to exactly `2560.0`)
the exact-rational comparison used here coincides with it. -/
def truncate_text (text : Str) (max_tokens : Nat := 800) : Str :=
  if text.isEmpty then text
  else
    let max_chars := max_tokens * 4
    if text.length ≤ max_chars then text
    else
      let truncated := text.take max_chars
      let last_period : Int :=
        match truncated.reverse.findIdx? (· = '.') with
        | some i => (truncated.length : Int) - 1 - i
        | none => -1
      if (8 * max_chars : Int) < 10 * last_period then
        truncated.take (last_period.toNat + 1)
      else truncated

/-! ## C8 — the validity predicate of titles -/

/-- C8 counterexample: `"Weather report news today"` has trimmed length 25
and is not one of the blacklisted generic strings, yet `is_valid_title`
rejects it, because the code tests each blacklisted string as a *substring*
(`inv in title_lower`), and `"news"` occurs inside it. -/
theorem is_valid_title_membership_cex :
    is_valid_title (str "Weather report news today") = false ∧
    10 ≤ (pyStrip (str "Weather report news today")).length ∧
    pyStrip (pyLower (str "Weather report news today")) ∉ invalid_titles := by
  refine ⟨by decide, by decide, by decide⟩

lemma containsSub_iff (sub s : Str) : containsSub sub s = true ↔ sub <:+: s := by
  induction s with
  | nil => simp [containsSub, List.isEmpty_iff, List.infix_nil]
  | cons c rest ih =>
    simp only [containsSub, Bool.or_eq_true, ih, List.infix_cons_iff,
      List.isPrefixOf_iff_prefix]

/-- C8 (amended): `is_valid_title` accepts a title iff its trimmed length is
at least 10 and no blacklisted generic string occurs as a substring of the
lowercased, trimmed title. -/
theorem is_valid_title_iff (title : Str) :
    is_valid_title title = true ↔
      10 ≤ (pyStrip title).length ∧
        ∀ b ∈ invalid_titles, ¬ b <:+: pyStrip (pyLower title) := by
  simp only [is_valid_title]
  by_cases hguard : (title.isEmpty || decide ((pyStrip title).length < 10)) = true
  · rw [if_pos hguard]
    simp only [Bool.or_eq_true, List.isEmpty_iff, decide_eq_true_eq] at hguard
    constructor
    · intro hF; cases hF
    · rintro ⟨hlen, -⟩
      rcases hguard with he | hlt
      · subst he; simp [pyStrip] at hlen
      · omega
  · rw [if_neg hguard]
    simp only [Bool.or_eq_true, List.isEmpty_iff, decide_eq_true_eq, not_or,
      Nat.not_lt] at hguard
    obtain ⟨hne, hlen⟩ := hguard
    constructor
    · intro hall
      refine ⟨hlen, fun b hb hinf => ?_⟩
      have h1 : (invalid_titles.any fun inv =>
          containsSub inv (pyStrip (pyLower title))) = false := by
        simpa using hall
      have h2 : (invalid_titles.any fun inv =>
          containsSub inv (pyStrip (pyLower title))) = true :=
        List.any_eq_true.mpr ⟨b, hb, (containsSub_iff b _).mpr hinf⟩
      rw [h1] at h2
      cases h2
    · rintro ⟨-, hnone⟩
      have h1 : (invalid_titles.any fun inv =>
          containsSub inv (pyStrip (pyLower title))) = false := by
        rw [Bool.eq_false_iff]
        intro hany
        rw [List.any_eq_true] at hany
        obtain ⟨b, hb, hc⟩ := hany
        exact hnone b hb ((containsSub_iff b _).mp hc)
      simpa using h1

/-! ## Entities (nlp/entities.py and rss_scraper.py lines 220-233) -/

/-- A raw entity entry as the NER models emit it: a Python dict whose keys
may be absent (`entity.get(...)` with a default).  `score` values undergo no
arithmetic anywhere in the pipeline, so they are carried as rationals. -/
structure RawEntity where
  name : Option Str
  type : Option Str
  sentiment : Option Str
  bias : Option Str
  score : Option Rat
deriving DecidableEq

/-- An entry after `_validate_entities`: every field present and normalized. -/
structure ValidatedEntity where
  name : Str
  type : Str
  sentiment : Str
  bias : Option Str
  score : Rat
deriving DecidableEq

/-- Python `str.isdigit()` (ASCII digits). -/
def pyIsDigit (s : Str) : Bool := !s.isEmpty && s.all Char.isDigit

/-- The punctuation set of `_validate_entities`: `.,!?;:()-[]\x7b\x7d"'`. -/
def punctChars : Str := str ".,!?;:()-[]\x7b\x7d\"\x27"

/-- `all(c in '...' for c in name)`. -/
def isPunctOnly (s : Str) : Bool := s.all fun c => punctChars.contains c

/-- The per-entry body of `_validate_entities`'s loop (entities.py lines
131-160): `none` when the entry is discarded. -/
def validateEntity (e : RawEntity) : Option ValidatedEntity :=
  match e.name with
  | none => none
  | some name0 =>
    let name := pyStrip name0
    if name.isEmpty || name.length < 2 then none
    else if pyIsDigit name || isPunctOnly name then none
    else
      let sent := pyLower (e.sentiment.getD (str "neutral"))
      some
        { name := name
          type := pyLower (e.type.getD (str "misc"))
          sentiment :=
            if sent = str "positive" || sent = str "negative" ||
                sent = str "neutral" then sent
            else str "neutral"
          bias := e.bias
          score := e.score.getD (1 / 2 : Rat) }

/-- The dedup pass of `_validate_entities` (entities.py lines 165-175):
first-seen wins, keyed by the lowercased name. -/
def dedupByName (seen : List Str) : List ValidatedEntity → List ValidatedEntity
  | [] => []
  | e :: rest =>
    if pyLower e.name ∈ seen then dedupByName seen rest
    else e :: dedupByName (pyLower e.name :: seen) rest

/-- `_validate_entities` (entities.py lines 125-175). -/
def _validate_entities (entities : List RawEntity) : List ValidatedEntity :=
  dedupByName [] (entities.filterMap validateEntity)

/-- `extract_entities` (entities.py lines 40-72): the NER model call is the
collaborator `rawNer`; the function's own try/except turns any model failure
into the empty list, and `_validate_entities` post-processes the rest. -/
def extract_entities (rawNer : Str → Except Unit (List RawEntity)) (text : Str) :
    List ValidatedEntity :=
  if text.isEmpty then []
  else
    match rawNer text with
    | .error _ => []
    | .ok es => _validate_entities es

/-- Modelled from the spec: the Pydantic model `EntitySentiment` is declared
in backend/models/article_model.py, a file of this repository that is not
among the provided sources; its fields follow the spec's data model (§3) and
the constructor call in rss_scraper.py lines 227-230. -/
structure EntitySentiment where
  name : Str
  type : Str
  sentiment : Str
  bias : Option Str
  score : Option Rat
deriving DecidableEq

/-- `validate_and_create_entities` (rss_scraper.py lines 220-233). -/
def validate_and_create_entities (entities_data : Option (List ValidatedEntity)) :
    List EntitySentiment :=
  match entities_data with
  | none => []
  | some es =>
    es.filterMap fun e =>
      if (pyStrip e.name).isEmpty then none
      else
        some { name := pyStrip e.name, type := e.type, sentiment := e.sentiment,
               bias := e.bias, score := some e.score }

/-! ## The per-item pipeline (rss_scraper.py lines 166-338) -/

/-- `requests` response: the fields the code reads. -/
structure HttpResp where
  status_code : Nat
  text : Str
deriving DecidableEq

/-- A parsed `newspaper3k` article: the fields the code reads.  Dates are
carried as their ISO strings. -/
structure NewsArt where
  text : Str
  title : Str
  publish_date : Option Str
deriving DecidableEq

/-- The dict `download_article` returns (the pipeline reads only `title`,
`text` and `publish_date` from it). -/
structure RawArticle where
  title : Option Str
  text : Str
  method : Str
  publish_date : Option Str
deriving DecidableEq

/-- A feed entry as `fetch_feed_entries` builds it. -/
structure FeedEntry where
  title : Str
  link : Str
  published : Option Str
  source : Str
  description : Str
deriving DecidableEq

/-- Modelled from the spec: the Pydantic model `ArticleDoc` is declared in
backend/models/article_model.py, a file of this repository that is not among
the provided sources; its fields follow the spec's data model (§3,
EnrichedDocument) and the constructor call in rss_scraper.py lines 314-328. -/
structure ArticleDoc where
  title : Str
  url : Str
  source_name : Str
  published_date : Option Str
  language : Str
  original_text : Str
  translated_text : Option Str
  summary : Option Str
  bias_overall : Str
  bias_score : Rat
  sentiment_overall : Str
  sentiment_score : Rat
  entities : List EntitySentiment
deriving DecidableEq

/-- The bulk-indexing action `process_single_article` returns. -/
structure IndexAction where
  index : Str
  id : Str
  source : ArticleDoc
deriving DecidableEq

/-- An observable side effect of the per-item pipeline: a network fetch or
an analyzer invocation. -/
inductive Effect where
  | httpGet (url : Str)
  | nlpCall (name : Str)
deriving DecidableEq

/-- `INDEX_NAME` (config.py): the default `news_articles`. -/
def INDEX_NAME : Str := str "news_articles"

/-- The pipeline's collaborators (spec §6): the document store (as the set of
IDs it already holds), the pooled HTTP client, the two extractors' internals,
and the analyzer capabilities.  A collaborator that can raise returns
`Option`/`Except`, with `none`/`error` standing for the raised exception. -/
structure PipeEnv where
  store : List Str
  http : Str → Option HttpResp
  traf : Str → Option Str
  trafMetaTitle : Str → Option Str
  htmlTitle : Str → Str → Option Str
  news : Str → Option NewsArt
  detect : Str → Except Unit Str
  translate : Str → Except Unit Str
  summarize : Str → Except Unit Str
  rawNer : Str → Except Unit (List RawEntity)
  classifyBias : Str → Except Unit (Str × Rat)
  classifySent : Str → Except Unit (Str × Rat)
  parseDate : Str → Option Str

/-- `safe_nlp_operation` (rss_scraper.py lines 214-218): call the analyzer,
catch any exception as `none`. -/
def safe_nlp_operation {α : Type} (op : Str → Except Unit α) (arg : Str) :
    Option α :=
  match op arg with
  | .ok v => some v
  | .error _ => none

/-- The primary try block of `download_article` (rss_scraper.py lines
167-189): the pooled-session GET plus trafilatura extraction and the
metadata/HTML/content title attempts.  `extract_title_from_html` walks
BeautifulSoup state, so it appears as the collaborator `env.htmlTitle`. -/
def primaryExtract (env : PipeEnv) (url : Str) : Option RawArticle :=
  match env.http url with
  | none => none
  | some resp =>
    if resp.status_code = 200 then
      match env.traf resp.text with
      | none => none
      | some text =>
        if !text.isEmpty && 100 < (pyStrip text).length then
          let t1 : Option Str :=
            match env.trafMetaTitle resp.text with
            | some mt =>
              if mt.isEmpty then none
              else
                let pt := clean_title mt
                if is_valid_title pt then some pt else none
            | none => none
          -- `if not title:` is Python truthiness, so an empty string left
          -- by `extract_title_from_html` falls through like `None` does.
          let t2 := match t1 with
            | some t => some t
            | none =>
              match env.htmlTitle resp.text url with
              | some ht => if ht.isEmpty then none else some ht
              | none => none
          let t3 := match t2 with
            | some t => some t
            | none => extract_title_from_content text
          some { title := t3, text := text, method := str "trafilatura",
                 publish_date := none }
        else none
    else none

/-- The newspaper3k fallback block of `download_article` (lines 192-206). -/
def secondaryExtract (env : PipeEnv) (url : Str) : Option RawArticle :=
  match env.news url with
  | none => none
  | some art =>
    if !art.text.isEmpty && 100 < (pyStrip art.text).length then
      let title : Option Str :=
        if art.title.isEmpty then none
        else
          let pt := clean_title art.title
          if is_valid_title pt then some pt else none
      some { title := title, text := art.text, method := str "newspaper3k",
             publish_date := art.publish_date }
    else none

/-- The two try blocks in sequence; the second GET is newspaper3k's own
`art.download()`. -/
def download_article (env : PipeEnv) (url : Str) :
    Option RawArticle × List Effect :=
  match primaryExtract env url with
  | some a => (some a, [.httpGet url])
  | none =>
    match secondaryExtract env url with
    | some a => (some a, [.httpGet url, .httpGet url])
    | none => (none, [.httpGet url, .httpGet url])

/-- The remainder of the string after its first `//`. -/
def afterDoubleSlash : Str → Str
  | [] => []
  | c :: rest =>
    if List.isPrefixOf (str "//") (c :: rest) then rest.drop 1
    else afterDoubleSlash rest

/-- `url.split('//')[1].split('/')[0] if '//' in url else 'Unknown Source'`
(rss_scraper.py line 275). -/
def domainOf (url : Str) : Str :=
  if containsSub (str "//") url then
    (afterDoubleSlash url).takeWhile (· != '/')
  else str "Unknown Source"

/-- The title-resolution chain of `process_single_article` (rss_scraper.py
lines 259-275): feed title, extracted title, content-mined title,
URL-derived title, then the final validity re-check that falls back to a
generic label naming the source domain.  `final_title` starts as `None` and
every later step runs under `if not final_title:` — Python truthiness — so
an *empty* string left by `clean_title` falls through to the next candidate
exactly like `None`; the accumulator is therefore a string with `[]`
standing for "unset". -/
def resolveTitle (entryTitle : Str) (extractedTitle : Option Str) (text : Str)
    (url : Str) : Str :=
  let rss_title := pyStrip entryTitle
  let final0 : Str :=
    if !rss_title.isEmpty && is_valid_title rss_title then clean_title rss_title
    else []
  let final1 : Str :=
    if final0.isEmpty then
      match extractedTitle with
      | some ex =>
        if !ex.isEmpty && is_valid_title ex then clean_title ex else []
      | none => []
    else final0
  let final2 : Str :=
    if final1.isEmpty then
      match extract_title_from_content text with
      | some ct => if !ct.isEmpty && is_valid_title ct then ct else []
      | none => []
    else final1
  let final3 : Str := if final2.isEmpty then extract_title_from_url url else final2
  if final3.isEmpty || !is_valid_title final3 then
    str "Article from " ++ domainOf url
  else final3

/-- Python `x or "en"` on an optional analyzer result: `None` and the empty
string are falsy. -/
def pyOrStr (x : Option Str) (d : Str) : Str :=
  match x with
  | none => d
  | some s => if s.isEmpty then d else s

/-- `process_single_article` (rss_scraper.py lines 235-338), paired with the
network/analyzer effects the call performs.  The gate returns `(none, [])`
when the store already holds the item's content-addressed ID.  `dateutil`'s
parser is the collaborator `env.parseDate`; dates travel as ISO strings, so
`iso_date` is the identity on a present date.  `extract_entities` never
raises (its own `try/except` returns `[]`), so its `safe_nlp_operation`
wrapper always receives a value. -/
def process_single_article (env : PipeEnv) (entry : FeedEntry) :
    Option IndexAction × List Effect :=
  let url := entry.link
  let doc_id := generate_id url
  if env.store.contains doc_id then (none, [])
  else
    let dl := download_article env url
    match dl.1 with
    | none => (none, dl.2)
    | some raw =>
      let text0 := truncate_text raw.text
      let final_title := resolveTitle entry.title raw.title text0 url
      let lang := pyOrStr (safe_nlp_operation env.detect text0) (str "en")
      let translated_text : Option Str :=
        if lang = str "en" then none
        else
          match safe_nlp_operation env.translate text0 with
          | some t => if t.isEmpty then none else some t
          | none => none
      let text1 := match translated_text with
        | some t => t
        | none => text0
      let summary := safe_nlp_operation env.summarize text1
      let entities_data : Option (List ValidatedEntity) :=
        some (extract_entities env.rawNer text1)
      let entities := validate_and_create_entities entities_data
      let biasLS : Str × Rat :=
        match safe_nlp_operation env.classifyBias text1 with
        | none => (str "neutral", 0)
        | some (l, s) => (if l.isEmpty then str "neutral" else l, s)
      let sentLS : Str × Rat :=
        match safe_nlp_operation env.classifySent text1 with
        | none => (str "neutral", 0)
        | some (l, s) => (if l.isEmpty then str "neutral" else l, s)
      let pub_date : Option Str :=
        match raw.publish_date with
        | some d => some d
        | none =>
          match entry.published with
          | some p => env.parseDate p
          | none => none
      let article_doc : ArticleDoc :=
        { title := final_title
          url := url
          source_name := entry.source
          published_date := pub_date
          language := lang
          original_text := raw.text.take 5000
          translated_text := translated_text
          summary := summary
          bias_overall := biasLS.1
          bias_score := biasLS.2
          sentiment_overall := sentLS.1
          sentiment_score := sentLS.2
          entities := entities }
      let effs := dl.2 ++
        [.nlpCall (str "Language detection")] ++
        (if lang = str "en" then [] else [.nlpCall (str "Translation")]) ++
        [.nlpCall (str "Summarization"), .nlpCall (str "Entity extraction"),
         .nlpCall (str "Bias classification"),
         .nlpCall (str "Sentiment classification")]
      (some { index := INDEX_NAME, id := doc_id, source := article_doc }, effs)

/-- The document collection step of `ingest_from_feeds` (rss_scraper.py lines
350-366): every per-item result that is not `None` joins the batch to be
bulk-written.  Worker completion order is immaterial to membership; the batch
is modelled in submission order. -/
def docs_to_index (env : PipeEnv) (entries : List FeedEntry) : List IndexAction :=
  entries.filterMap fun e => (process_single_article env e).1

/-! ## Concrete fixtures for witnesses -/

/-- A body text of more than 100 characters, as a successful extraction
yields. -/
def okArticleText : Str :=
  str "Markets rallied strongly across several regions during early trading, with investors reacting to fresh economic data and a string of upbeat corporate earnings reports."

/-- A collaborator environment in which every step succeeds. -/
def testEnv : PipeEnv :=
  { store := []
    http := fun _ => some { status_code := 200, text := str "<html>" }
    traf := fun _ => some okArticleText
    trafMetaTitle := fun _ => none
    htmlTitle := fun _ _ => none
    news := fun _ => none
    detect := fun _ => .ok (str "en")
    translate := fun _ => .ok []
    summarize := fun _ => .ok (str "A summary.")
    rawNer := fun _ => .ok []
    classifyBias := fun _ => .ok (str "neutral", 0)
    classifySent := fun _ => .ok (str "negative", 1)
    parseDate := fun _ => none }

/-- `testEnv` with every analyzer capability raising. -/
def failEnv : PipeEnv :=
  { testEnv with
    detect := fun _ => .error ()
    translate := fun _ => .error ()
    summarize := fun _ => .error ()
    rawNer := fun _ => .error ()
    classifyBias := fun _ => .error ()
    classifySent := fun _ => .error ()
    parseDate := fun _ => none }

/-- A feed entry for `http://a.test/1`. -/
def testEntry : FeedEntry :=
  { title := str "Breaking: X raises funds", link := str "http://a.test/1",
    published := none, source := str "A Test Feed", description := [] }

/-- What `download_article` yields on `testEnv`/`failEnv`. -/
def testRaw : RawArticle :=
  { title := extract_title_from_content okArticleText, text := okArticleText,
    method := str "trafilatura", publish_date := none }

/-- `testEnv` whose store already holds `testEntry`'s content-addressed ID
(`md5("http://a.test/1")`). -/
def dupEnv : PipeEnv :=
  { testEnv with store := [str "9758a08f62aa66bb1ad66f56554b2dc5"] }

example : download_article testEnv (str "http://a.test/1") =
    (some testRaw, [.httpGet (str "http://a.test/1")]) := by decide

/-! ## C2 — the dedup gate short-circuits with zero side effects -/

/-- C2: when the store already holds the item's content-addressed ID, the
per-item pipeline returns no result and performs no effect at all — no HTTP
fetch, no analyzer call — and the skipped item contributes nothing to the
batch of documents to be written. -/
theorem dedup_gate_skips_existing (env : PipeEnv) (entry : FeedEntry)
    (h : env.store.contains (generate_id entry.link) = true) :
    process_single_article env entry = (none, []) ∧
    ∀ rest : List FeedEntry,
      docs_to_index env (entry :: rest) = docs_to_index env rest := by
  have hmem : generate_id entry.link ∈ env.store := by simpa using h
  have h1 : process_single_article env entry = (none, []) := by
    simp [process_single_article, h, hmem]
  exact ⟨h1, fun rest => by simp [docs_to_index, List.filterMap_cons, h1]⟩

/-- C2 witness: the gate fires at `md5("http://a.test/1")` already stored. -/
theorem dedup_gate_skips_existing_witness :
    process_single_article dupEnv testEntry = (none, []) ∧
    ∀ rest : List FeedEntry,
      docs_to_index dupEnv (testEntry :: rest) = docs_to_index dupEnv rest :=
  dedup_gate_skips_existing dupEnv testEntry (by decide)

/-! ## C10 — the persisted original text is the first 5000 characters -/

/-- C10: whenever the pipeline builds a document, the persisted
`original_text` is exactly the first 5000 characters of the extracted body
text (Python `raw_article['text'][:5000]`), so it never exceeds 5000
characters — while the analyzers operate on the separately truncated copy
`truncate_text(text)`. -/
theorem original_text_first_5000 (env : PipeEnv) (entry : FeedEntry)
    (raw : RawArticle) (eff : List Effect)
    (hid : env.store.contains (generate_id entry.link) = false)
    (h : download_article env entry.link = (some raw, eff)) :
    ((process_single_article env entry).1.map fun a => a.source.original_text) =
      some (raw.text.take 5000) ∧
    ∀ a ∈ (process_single_article env entry).1,
      a.source.original_text.length ≤ 5000 := by
  have hmem : generate_id entry.link ∉ env.store := by simpa using hid
  have h1 : ((process_single_article env entry).1.map
      fun a => a.source.original_text) = some (raw.text.take 5000) := by
    simp [process_single_article, hmem, h]
  refine ⟨h1, fun a ha => ?_⟩
  have : a.source.original_text = raw.text.take 5000 := by
    rcases hx : (process_single_article env entry).1 with _ | b
    · rw [hx] at ha; cases ha
    · rw [hx] at ha h1
      have hb : a = b := by
        have := ha
        simp only [Option.mem_def] at this
        exact (Option.some_inj.mp this).symm
      subst hb
      simpa using h1
  rw [this, List.length_take]
  exact Nat.min_le_left _ _

/-- C10 witness: a concrete run through `testEnv`. -/
theorem original_text_first_5000_witness :
    ((process_single_article testEnv testEntry).1.map
      fun a => a.source.original_text) = some (testRaw.text.take 5000) ∧
    ∀ a ∈ (process_single_article testEnv testEntry).1,
      a.source.original_text.length ≤ 5000 :=
  original_text_first_5000 testEnv testEntry testRaw
    [.httpGet (str "http://a.test/1")] (by decide) (by decide)

/-! ## C4 — analyzer failures are isolated and defaulted -/

/-- C4: once the item passes the gate and extraction, the document is built
no matter what the analyzers do; and each capability, when it raises, is
replaced by its documented default — language `"en"`, no translation, empty
summary, empty entity list, bias `("neutral", 0.0)`, sentiment
`("neutral", 0.0)` — rather than aborting the item. -/
theorem analyzer_fault_isolation (env : PipeEnv) (entry : FeedEntry)
    (raw : RawArticle) (eff : List Effect)
    (hid : env.store.contains (generate_id entry.link) = false)
    (h : download_article env entry.link = (some raw, eff)) :
    (process_single_article env entry).1.isSome = true ∧
    (env.detect = (fun _ => .error ()) →
      ((process_single_article env entry).1.map fun a => a.source.language) =
        some (str "en")) ∧
    (env.translate = (fun _ => .error ()) →
      ((process_single_article env entry).1.map fun a => a.source.translated_text) =
        some none) ∧
    (env.summarize = (fun _ => .error ()) →
      ((process_single_article env entry).1.map fun a => a.source.summary) =
        some none) ∧
    (env.rawNer = (fun _ => .error ()) →
      ((process_single_article env entry).1.map fun a => a.source.entities) =
        some []) ∧
    (env.classifyBias = (fun _ => .error ()) →
      ((process_single_article env entry).1.map
        fun a => (a.source.bias_overall, a.source.bias_score)) =
          some (str "neutral", 0)) ∧
    (env.classifySent = (fun _ => .error ()) →
      ((process_single_article env entry).1.map
        fun a => (a.source.sentiment_overall, a.source.sentiment_score)) =
          some (str "neutral", 0)) := by
  have hmem : generate_id entry.link ∉ env.store := by simpa using hid
  refine ⟨?_, ?_, ?_, ?_, ?_, ?_, ?_⟩
  · simp [process_single_article, hmem, h]
  · intro hx
    simp [process_single_article, hmem, h, hx, safe_nlp_operation, pyOrStr]
  · intro hx
    simp [process_single_article, hmem, h, hx, safe_nlp_operation]
  · intro hx
    simp [process_single_article, hmem, h, hx, safe_nlp_operation]
  · intro hx
    simp [process_single_article, hmem, h, hx, safe_nlp_operation,
      extract_entities, validate_and_create_entities]
  · intro hx
    simp [process_single_article, hmem, h, hx, safe_nlp_operation]
  · intro hx
    simp [process_single_article, hmem, h, hx, safe_nlp_operation]

/-- C4 witness: all six capabilities raising at once, on a concrete item;
every default lands and the document is still built. -/
theorem analyzer_fault_isolation_witness :
    (process_single_article failEnv testEntry).1.isSome = true ∧
    ((process_single_article failEnv testEntry).1.map fun a => a.source.language) =
      some (str "en") ∧
    ((process_single_article failEnv testEntry).1.map fun a => a.source.summary) =
      some none ∧
    ((process_single_article failEnv testEntry).1.map fun a => a.source.entities) =
      some [] := by
  have h := analyzer_fault_isolation failEnv testEntry testRaw
    [.httpGet (str "http://a.test/1")] (by decide) (by decide)
  exact ⟨h.1, h.2.1 rfl, h.2.2.2.1 rfl, h.2.2.2.2.1 rfl⟩

/-! ## C5 — the title-resolution chain -/

lemma valid_not_empty {t : Str} (h : is_valid_title t = true) :
    t.isEmpty = false := by
  cases he : t.isEmpty
  · rfl
  · rw [is_valid_title, he] at h
    simp at h

/-- C5 counterexample: the feed title `"abcdefgh - xyz"` passes the validity
predicate (the earliest valid candidate), and a valid extractor title sits at
position 2 — yet the final title is the position-5 generic label, because
`clean_title` strips the `" - xyz"` suffix *after* validation and the
8-character remainder fails the post-clean validity re-check. -/
theorem title_chain_priority_cex :
    is_valid_title (pyStrip (str "abcdefgh - xyz")) = true ∧
    is_valid_title (str "A Perfectly Fine Headline") = true ∧
    resolveTitle (str "abcdefgh - xyz") (some (str "A Perfectly Fine Headline"))
        [] (str "http://a.test/1") = str "Article from a.test" ∧
    str "Article from a.test" ≠ clean_title (pyStrip (str "abcdefgh - xyz")) ∧
    str "Article from a.test" ≠ str "A Perfectly Fine Headline" := by
  exact ⟨by decide, by decide, by decide, by decide, by decide⟩

lemma isEmpty_false_of_ne {l : Str} (h : l ≠ []) : l.isEmpty = false := by
  cases hh : l.isEmpty
  · rfl
  · exact absurd (List.isEmpty_iff.mp hh) h

lemma firstContentTitle_valid (l : List Str) :
    ∀ ct, firstContentTitle l = some ct → is_valid_title ct = true := by
  induction l with
  | nil => intro ct h; cases h
  | cons sent rest ih =>
    intro ct h
    simp only [firstContentTitle] at h
    split_ifs at h with h1 h2
    · injection h with h
      rw [← h]
      exact h2
    · exact ih ct h
    · exact ih ct h

/-- Every title `extract_title_from_content` yields has already passed
`is_valid_title` (line 163 checks the cleaned sentence before returning). -/
lemma extract_title_from_content_valid {t ct : Str}
    (h : extract_title_from_content t = some ct) : is_valid_title ct = true := by
  simp only [extract_title_from_content] at h
  split_ifs at h with hg
  · exact firstContentTitle_valid _ ct h

/-- C5 (amended): the chain consults candidates in order — feed title,
extractor title, content-mined title, URL-derived title.  A candidate must
pass the validity predicate to be selected, and a selected candidate at
positions 1-2 is normalized by `clean_title`.  If the normalized form is
*empty*, Python's `if not final_title:` truthiness re-check falls through to
the next candidate as if none had been selected; if it is nonempty it
sticks — later candidates are never consulted — and the final validity
re-check replaces it with the generic source-domain label when it is no
longer valid.  Content-mined candidates arrive already normalized and valid;
the URL-derived candidate is taken without a validity precondition but is
subject to the same final re-check.  (Skipping a position is stated as
equality with the chain run on an empty feed title / absent extractor
title.) -/
theorem title_chain_priority (entryTitle : Str) (ex : Option Str)
    (text url : Str) :
    (is_valid_title (pyStrip entryTitle) = true →
      is_valid_title (clean_title (pyStrip entryTitle)) = true →
      resolveTitle entryTitle ex text url = clean_title (pyStrip entryTitle)) ∧
    (is_valid_title (pyStrip entryTitle) = true →
      clean_title (pyStrip entryTitle) ≠ [] →
      is_valid_title (clean_title (pyStrip entryTitle)) = false →
      resolveTitle entryTitle ex text url =
        str "Article from " ++ domainOf url) ∧
    (is_valid_title (pyStrip entryTitle) = true →
      clean_title (pyStrip entryTitle) = [] →
      resolveTitle entryTitle ex text url = resolveTitle [] ex text url) ∧
    (is_valid_title (pyStrip entryTitle) = false →
      resolveTitle entryTitle ex text url = resolveTitle [] ex text url) ∧
    (∀ e, ex = some e → is_valid_title e = true →
      is_valid_title (clean_title e) = true →
      resolveTitle [] ex text url = clean_title e) ∧
    (∀ e, ex = some e → is_valid_title e = true → clean_title e ≠ [] →
      is_valid_title (clean_title e) = false →
      resolveTitle [] ex text url = str "Article from " ++ domainOf url) ∧
    (∀ e, ex = some e → is_valid_title e = true → clean_title e = [] →
      resolveTitle [] ex text url = resolveTitle [] none text url) ∧
    (∀ e, ex = some e → is_valid_title e = false →
      resolveTitle [] ex text url = resolveTitle [] none text url) ∧
    (∀ ct, extract_title_from_content text = some ct →
      is_valid_title ct = true) ∧
    (∀ ct, extract_title_from_content text = some ct →
      resolveTitle [] none text url = ct) ∧
    (extract_title_from_content text = none →
      resolveTitle [] none text url =
        (if is_valid_title (extract_title_from_url url) then
          extract_title_from_url url
        else str "Article from " ++ domainOf url)) := by
  have hnil : pyStrip ([] : Str) = [] := rfl
  refine ⟨?_, ?_, ?_, ?_, ?_, ?_, ?_, ?_, ?_, ?_, ?_⟩
  · intro hv hvc
    simp [resolveTitle, valid_not_empty hv, hv, valid_not_empty hvc, hvc]
  · intro hv hne hvcF
    simp [resolveTitle, valid_not_empty hv, hv, isEmpty_false_of_ne hne, hvcF]
  · intro hv hemp
    simp [resolveTitle, hnil, hv, hemp]
  · intro hvF
    simp [resolveTitle, hnil, hvF]
  · intro e he hve hvec
    simp [resolveTitle, hnil, he, valid_not_empty hve, hve,
      valid_not_empty hvec, hvec]
  · intro e he hve hne hvecF
    simp [resolveTitle, hnil, he, valid_not_empty hve, hve,
      isEmpty_false_of_ne hne, hvecF]
  · intro e he hve hemp
    simp [resolveTitle, hnil, he, valid_not_empty hve, hve, hemp]
  · intro e he hveF
    simp [resolveTitle, hnil, he, hveF]
  · exact fun ct hct => extract_title_from_content_valid hct
  · intro ct hct
    have hvct := extract_title_from_content_valid hct
    simp [resolveTitle, hnil, hct, hvct, valid_not_empty hvct]
  · intro hctn
    cases hvurl : is_valid_title (extract_title_from_url url)
    · simp [resolveTitle, hnil, hctn, hvurl]
    · simp [resolveTitle, hnil, hctn, hvurl, valid_not_empty hvurl]

/-! ## C9 — extraction failure conditions -/

/-- The primary extraction step's failure condition, stated from the claim's
viewpoint: the GET raised (`none`) or returned non-200, or trafilatura
produced nothing, or the stripped body fails to exceed 100 characters. -/
def primaryFails (env : PipeEnv) (url : Str) : Prop :=
  match env.http url with
  | none => True
  | some resp =>
    resp.status_code ≠ 200 ∨
    match env.traf resp.text with
    | none => True
    | some text => text = [] ∨ (pyStrip text).length ≤ 100

/-- The secondary (newspaper3k) step's failure condition: the
download/parse raised, or the article text fails the same `> 100`
threshold. -/
def secondaryFails (env : PipeEnv) (url : Str) : Prop :=
  match env.news url with
  | none => True
  | some art => art.text = [] ∨ (pyStrip art.text).length ≤ 100

lemma and_false_threshold {text : Str}
    (hok : (!text.isEmpty && decide (100 < (pyStrip text).length)) = false) :
    text = [] ∨ (pyStrip text).length ≤ 100 := by
  by_cases hemp : text = []
  · exact Or.inl hemp
  · right
    have h1 : (!text.isEmpty) = true := by simp [hemp]
    have h2 : decide (100 < (pyStrip text).length) = false := by
      cases hd : decide (100 < (pyStrip text).length)
      · rfl
      · rw [h1, hd] at hok; cases hok
    have := of_decide_eq_false h2
    omega

lemma and_true_threshold {text : Str}
    (hok : (!text.isEmpty && decide (100 < (pyStrip text).length)) = true) :
    ¬(text = [] ∨ (pyStrip text).length ≤ 100) := by
  obtain ⟨h1, h2⟩ := Bool.and_eq_true_iff.mp hok
  have hz := of_decide_eq_true h2
  rintro (hemp | hlen)
  · rw [hemp] at h1; cases h1
  · omega

lemma primaryExtract_eq_none_iff (env : PipeEnv) (url : Str) :
    primaryExtract env url = none ↔ primaryFails env url := by
  rcases hhttp : env.http url with _ | resp
  · simp [primaryExtract, primaryFails, hhttp]
  · by_cases hst : resp.status_code = 200
    · rcases htraf : env.traf resp.text with _ | text
      · simp [primaryExtract, primaryFails, hhttp, htraf, hst]
      · cases hok : (!text.isEmpty && decide (100 < (pyStrip text).length))
        · simp only [primaryExtract, primaryFails, hhttp, htraf, hst, hok,
            Bool.false_eq_true, if_false, if_true, ne_eq, not_true_eq_false,
            false_or, true_iff]
          exact and_false_threshold hok
        · simp only [primaryExtract, primaryFails, hhttp, htraf, hst, hok,
            if_true, ne_eq, not_true_eq_false, false_or, reduceCtorEq,
            false_iff]
          exact and_true_threshold hok
    · simp [primaryExtract, primaryFails, hhttp, hst]

lemma secondaryExtract_eq_none_iff (env : PipeEnv) (url : Str) :
    secondaryExtract env url = none ↔ secondaryFails env url := by
  rcases hnews : env.news url with _ | art
  · simp [secondaryExtract, secondaryFails, hnews]
  · cases hok : (!art.text.isEmpty && decide (100 < (pyStrip art.text).length))
    · simp only [secondaryExtract, secondaryFails, hnews, hok,
        Bool.false_eq_true, if_false, true_iff]
      exact and_false_threshold hok
    · simp only [secondaryExtract, secondaryFails, hnews, hok, if_true,
        reduceCtorEq, false_iff]
      exact and_true_threshold hok

/-- A body text of exactly 100 characters after stripping. -/
def hundredText : Str :=
  str "abcdefghijabcdefghijabcdefghijabcdefghijabcdefghijabcdefghijabcdefghijabcdefghijabcdefghijabcdefghij"

example : hundredText.length = 100 := by decide

/-- `testEnv` whose extractor yields exactly 100 characters. -/
def env100 : PipeEnv := { testEnv with traf := fun _ => some hundredText }

/-- C9 counterexample: with HTTP status 200 and an extracted body of exactly
100 characters — a length *not below* the 100-character threshold — the
primary step still fails (the code requires strictly more than 100), the
newspaper3k fallback raises, and `download_article` returns nothing. -/
theorem download_threshold_cex :
    (pyStrip hundredText).length = 100 ∧
    env100.http (str "http://a.test/1") =
      some { status_code := 200, text := str "<html>" } ∧
    env100.traf (str "<html>") = some hundredText ∧
    (download_article env100 (str "http://a.test/1")).1 = none := by
  exact ⟨by decide, rfl, rfl, by decide⟩

/-- C9 (amended): `download_article` yields nothing exactly when the primary
step fails — the GET raises or returns a non-200 status, or extraction
produces no text, or the stripped body has length *at most* 100 (the code
demands strictly more than 100 characters) — and the secondary extractor,
attempting the same page under the same strict threshold, fails too; and an
item whose download yields nothing contributes no document for this cycle. -/
theorem download_article_failure_iff (env : PipeEnv) (url : Str) :
    ((download_article env url).1 = none ↔
      primaryFails env url ∧ secondaryFails env url) ∧
    ∀ entry : FeedEntry, entry.link = url →
      (download_article env url).1 = none →
      (process_single_article env entry).1 = none := by
  constructor
  · rw [download_article]
    rcases hp : primaryExtract env url with _ | a
    · rcases hs : secondaryExtract env url with _ | a
      · simp only [true_iff]
        exact ⟨(primaryExtract_eq_none_iff env url).mp hp,
          (secondaryExtract_eq_none_iff env url).mp hs⟩
      · simp only [reduceCtorEq, false_iff, not_and]
        intro _
        intro hsf
        rw [(secondaryExtract_eq_none_iff env url).mpr hsf] at hs
        cases hs
    · simp only [reduceCtorEq, false_iff, not_and]
      intro hpf
      rw [(primaryExtract_eq_none_iff env url).mpr hpf] at hp
      cases hp
  · intro entry hlink hnone
    cases hc : env.store.contains (generate_id url)
    · have hmem : generate_id url ∉ env.store := by simpa using hc
      simp [process_single_article, hlink, hmem, hnone]
    · have hmem : generate_id url ∈ env.store := by simpa using hc
      simp [process_single_article, hlink, hmem]

/-! ## The risk scanner and alert batcher (agent.py) -/

/-- A stored document as the risk query projects it.  `published_date` is an
ISO-8601 timestamp, carried as an integer so the range filter's comparison is
explicit; the `24` subtracted below stands for the 24-hour window. -/
structure EsDoc where
  title : Str
  summary : Option Str
  url : Str
  source_name : Str
  published_date : Int
  sentiment_overall : Str
deriving DecidableEq

/-- The scanner's collaborators (spec §6): the stored documents, the search
engine's full-text `multi_match` relevance predicate over title/summary
(internal to the store, hence opaque), and the current time. -/
structure AgentEnv where
  store : List EsDoc
  matchTopic : Str → EsDoc → Bool
  now : Int

/-- The `bool` query of `analyze_topic_risk` (agent.py lines 14-25):
relevance match on title/summary, `published_date >= yesterday`, and the
`sentiment_overall = "negative"` filter. -/
def riskQuery (env : AgentEnv) (topic : Str) (d : EsDoc) : Bool :=
  env.matchTopic topic d && decide (env.now - 24 ≤ d.published_date) &&
    decide (d.sentiment_overall = str "negative")

/-- Insertion into a list sorted by `published_date` descending. -/
def insertByDateDesc (d : EsDoc) : List EsDoc → List EsDoc
  | [] => [d]
  | e :: rest =>
    if e.published_date ≤ d.published_date then d :: e :: rest
    else e :: insertByDateDesc d rest

/-- The `sort: published_date desc` of the search. -/
def sortByDateDesc (l : List EsDoc) : List EsDoc :=
  l.foldr insertByDateDesc []

/-- `es.search(...)` in `analyze_topic_risk` (agent.py lines 28-38): filter
by the query, sort by recency descending, return at most `size: 5` hits. -/
def esSearchHits (env : AgentEnv) (topic : Str) : List EsDoc :=
  (sortByDateDesc (env.store.filter (riskQuery env topic))).take 5

/-- The RiskRecord (spec §3) as `analyze_topic_risk` builds it;
`ai_assessment` and `users_affected` are filled in by `run_patrol`. -/
structure RiskRecord where
  topic : Str
  is_critical : Bool
  article_count : Nat
  articles_data : List EsDoc
  top_summary : Str
  ai_assessment : Option Str
  users_affected : List Str
deriving DecidableEq

/-- `analyze_topic_risk` (agent.py lines 10-52). -/
def analyze_topic_risk (env : AgentEnv) (topic : Str) : RiskRecord :=
  let hits := esSearchHits env topic
  { topic := topic
    is_critical := decide (0 < hits.length)
    article_count := hits.length
    articles_data := hits
    top_summary :=
      match hits with
      | [] => str "No summary available."
      | d :: _ =>
        match d.summary with
        | some s => if s.isEmpty then str "No summary available." else s
        | none => str "No summary available."
    ai_assessment := none
    users_affected := [] }

/-- A subscriber record of the `news_users` index. -/
structure UserRec where
  email : Str
  watchlist : List Str
deriving DecidableEq

/-- One insertion into the topic→subscribers map of `run_patrol` (agent.py
lines 69-75); Python dicts preserve insertion order. -/
def addTopic (m : List (Str × List Str)) (t email : Str) :
    List (Str × List Str) :=
  if m.any fun p => p.1 = t then
    m.map fun p => if p.1 = t then (p.1, p.2 ++ [email]) else p
  else m ++ [(t, [email])]

/-- The topic map over every user's watchlist, topics trimmed. -/
def buildTopicMap (users : List UserRec) : List (Str × List Str) :=
  users.foldl
    (fun m u => u.watchlist.foldl (fun m' t => addTopic m' (pyStrip t) u.email) m)
    []

/-- The enrichment of a critical risk record in `run_patrol` (agent.py lines
93-95): the topic's summary becomes the `ai_assessment` and the subscriber
list is attached. -/
def mkCriticalRecord (env : AgentEnv) (p : Str × List Str) : RiskRecord :=
  { analyze_topic_risk env p.1 with
    ai_assessment := some (analyze_topic_risk env p.1).top_summary
    users_affected := p.2 }

/-- `run_patrol` (agent.py lines 54-105), returning the list of
`generate_alert_batch` calls it makes — each call's payload is one risk
list; report rendering and the browser tab are the notification sink (spec
§6, out of scope).  The user search caps at `size: 1000` hits. -/
def run_patrol (env : AgentEnv) (users : List UserRec) :
    List (List RiskRecord) :=
  let users := users.take 1000
  let topicMap := buildTopicMap users
  if topicMap.isEmpty then []
  else
    let risk_list := topicMap.filterMap fun p =>
      if (analyze_topic_risk env p.1).is_critical then
        some (mkCriticalRecord env p)
      else none
    if risk_list.isEmpty then [] else [risk_list]

/-! ## C3 — critical iff at least one match, count capped at 5 -/

lemma length_insertByDateDesc (d : EsDoc) (l : List EsDoc) :
    (insertByDateDesc d l).length = l.length + 1 := by
  induction l with
  | nil => rfl
  | cons e rest ih =>
    rw [insertByDateDesc]
    split
    · simp
    · simp [ih]

lemma length_sortByDateDesc (l : List EsDoc) :
    (sortByDateDesc l).length = l.length := by
  induction l with
  | nil => rfl
  | cons e rest ih =>
    simp [sortByDateDesc, List.foldr_cons, length_insertByDateDesc] at *
    exact ih

/-- C3: a topic's risk record is critical iff at least one stored document
matches the query (recent, negative, relevance-matching); its
`article_count` is the number of matching documents capped at the top
K = 5; in particular zero matches give `critical = false` and exactly one
match gives `critical = true` with `article_count = 1`. -/
theorem risk_scan_critical_iff (env : AgentEnv) (topic : Str) :
    ((analyze_topic_risk env topic).is_critical = true ↔
      ∃ d ∈ env.store, riskQuery env topic d = true) ∧
    (analyze_topic_risk env topic).article_count =
      min (env.store.filter (riskQuery env topic)).length 5 ∧
    ((env.store.filter (riskQuery env topic)).length = 0 →
      (analyze_topic_risk env topic).is_critical = false) ∧
    ((env.store.filter (riskQuery env topic)).length = 1 →
      (analyze_topic_risk env topic).is_critical = true ∧
      (analyze_topic_risk env topic).article_count = 1) := by
  have hlen : (esSearchHits env topic).length =
      min (env.store.filter (riskQuery env topic)).length 5 := by
    rw [esSearchHits, List.length_take, length_sortByDateDesc, Nat.min_comm]
  have hcrit : (analyze_topic_risk env topic).is_critical =
      decide (0 < (esSearchHits env topic).length) := rfl
  have hcount : (analyze_topic_risk env topic).article_count =
      (esSearchHits env topic).length := rfl
  refine ⟨?_, by rw [hcount, hlen], ?_, ?_⟩
  · rw [hcrit]
    constructor
    · intro h
      have h0 : 0 < (esSearchHits env topic).length := of_decide_eq_true h
      rw [hlen] at h0
      have hpos : 0 < (env.store.filter (riskQuery env topic)).length := by omega
      obtain ⟨d, hd⟩ := List.exists_mem_of_length_pos hpos
      have hm := List.mem_filter.mp hd
      exact ⟨d, hm.1, hm.2⟩
    · rintro ⟨d, hd, hq⟩
      have hmem : d ∈ env.store.filter (riskQuery env topic) :=
        List.mem_filter.mpr ⟨hd, hq⟩
      have hpos : 0 < (env.store.filter (riskQuery env topic)).length :=
        List.length_pos.mpr (List.ne_nil_of_mem hmem)
      refine decide_eq_true ?_
      rw [hlen]
      omega
  · intro h0
    rw [hcrit, hlen]
    simp [h0]
  · intro h1
    rw [hcrit, hcount, hlen, h1]
    exact ⟨by decide, rfl⟩

/-! ## C1 — one consolidated delivery per scan cycle -/

/-- The critical topics of one scan cycle, with their subscriber lists, in
topic-map order. -/
def criticalEntries (env : AgentEnv) (users : List UserRec) :
    List (Str × List Str) :=
  (buildTopicMap (users.take 1000)).filter fun p =>
    (analyze_topic_risk env p.1).is_critical

lemma filterMap_if_eq {α β : Type} (c : α → Bool) (g : α → β) (l : List α) :
    l.filterMap (fun a => if c a then some (g a) else none) =
      (l.filter c).map g := by
  induction l with
  | nil => rfl
  | cons a rest ih =>
    cases hc : c a <;>
      simp [List.filterMap_cons, List.filter_cons, hc, ih]

/-- C1: a scan cycle makes at most one delivery call; it makes none exactly
when no topic is critical, and otherwise exactly one call whose payload is
the whole list of critical risk records (one per critical topic, in
topic-map order, each carrying its assessment and subscribers) — never one
call per topic. -/
theorem alert_batch_single_delivery (env : AgentEnv) (users : List UserRec) :
    (run_patrol env users).length ≤ 1 ∧
    run_patrol env users =
      (if criticalEntries env users = [] then []
       else [(criticalEntries env users).map (mkCriticalRecord env)]) := by
  have hmain : run_patrol env users =
      (if criticalEntries env users = [] then []
       else [(criticalEntries env users).map (mkCriticalRecord env)]) := by
    rw [run_patrol, criticalEntries]
    rw [filterMap_if_eq
      (fun p : Str × List Str => (analyze_topic_risk env p.1).is_critical)
      (mkCriticalRecord env)]
    by_cases hempty : (buildTopicMap (users.take 1000)).isEmpty = true
    · rw [if_pos hempty]
      have h0 : buildTopicMap (users.take 1000) = [] :=
        List.isEmpty_iff.mp hempty
      rw [h0]
      simp
    · rw [if_neg hempty]
      by_cases hcrit : ((buildTopicMap (users.take 1000)).filter fun p =>
          (analyze_topic_risk env p.1).is_critical) = []
      · rw [hcrit]
        simp
      · rw [if_neg (by simpa [List.isEmpty_iff, List.map_eq_nil_iff] using hcrit),
          if_neg hcrit]
  refine ⟨?_, hmain⟩
  rw [hmain]
  by_cases hc : criticalEntries env users = []
  · rw [if_pos hc]
    simp
  · rw [if_neg hc]
    simp

/-! ## C6 — entity post-processing -/

lemma validateEntity_name_none {e : RawEntity} (h : e.name = none) :
    validateEntity e = none := by
  simp [validateEntity, h]

lemma validateEntity_discards {e : RawEntity} {n : Str} (hn : e.name = some n)
    (hbad : pyStrip n = [] ∨ pyIsDigit (pyStrip n) = true ∨
      isPunctOnly (pyStrip n) = true) :
    validateEntity e = none := by
  simp only [validateEntity, hn]
  split_ifs with hA hB
  · rfl
  · rfl
  · exfalso
    rcases hbad with h1 | h2 | h3
    · exact hA (by simp [h1])
    · exact hB (by simp [h2])
    · exact hB (by simp [h3])

lemma validateEntity_props {e : RawEntity} {v : ValidatedEntity}
    (h : validateEntity e = some v) :
    (∀ n, e.name = some n → v.name = pyStrip n) ∧
    v.name ≠ [] ∧ pyIsDigit v.name = false ∧ isPunctOnly v.name = false ∧
    v.type = pyLower (e.type.getD (str "misc")) ∧
    (v.sentiment = str "positive" ∨ v.sentiment = str "negative" ∨
      v.sentiment = str "neutral") := by
  rcases hn : e.name with _ | n
  · rw [validateEntity_name_none hn] at h
    cases h
  · simp only [validateEntity, hn] at h
    split_ifs at h with hA hB hs <;>
      (have hA' : pyStrip n ≠ [] := by
        intro hemp
        exact hA (by simp [hemp])
       have hB1 : pyIsDigit (pyStrip n) = false := by
        cases hd : pyIsDigit (pyStrip n)
        · rfl
        · exact absurd (by simp [hd]) hB
       have hB2 : isPunctOnly (pyStrip n) = false := by
        cases hd : isPunctOnly (pyStrip n)
        · rfl
        · exact absurd (by simp [hd]) hB)
    · injection h with h
      subst h
      refine ⟨fun n' hn' => ?_, hA', hB1, hB2, rfl, ?_⟩
      · injection hn' with hn'
        rw [hn']
      · simpa [or_assoc] using hs
    · injection h with h
      subst h
      refine ⟨fun n' hn' => ?_, hA', hB1, hB2, rfl, Or.inr (Or.inr rfl)⟩
      injection hn' with hn'
      rw [hn']

lemma dedupByName_spec (seen : List Str) (l : List ValidatedEntity) :
    ((dedupByName seen l).map fun v => pyLower v.name).Nodup ∧
    ∀ v ∈ dedupByName seen l, pyLower v.name ∉ seen := by
  induction l generalizing seen with
  | nil => exact ⟨List.nodup_nil, by simp [dedupByName]⟩
  | cons e rest ih =>
    rw [dedupByName]
    split_ifs with hmem
    · exact ⟨(ih seen).1, (ih seen).2⟩
    · have ih' := ih (pyLower e.name :: seen)
      refine ⟨?_, ?_⟩
      · simp only [List.map_cons, List.nodup_cons]
        refine ⟨?_, ih'.1⟩
        intro hcontra
        obtain ⟨v, hv, heq⟩ := List.mem_map.mp hcontra
        have hnot := ih'.2 v hv
        rw [heq] at hnot
        exact hnot (List.mem_cons_self _ _)
      · intro v hv
        rcases List.mem_cons.mp hv with rfl | hv'
        · exact hmem
        · have hnot := ih'.2 v hv'
          intro hseen
          exact hnot (List.mem_cons_of_mem _ hseen)

lemma dedupByName_sublist (seen : List Str) (l : List ValidatedEntity) :
    (dedupByName seen l).Sublist l := by
  induction l generalizing seen with
  | nil => simp [dedupByName]
  | cons e rest ih =>
    rw [dedupByName]
    split_ifs with hmem
    · exact (ih seen).cons e
    · exact (ih _).cons₂ e

lemma dedupByName_covers (seen : List Str) (l : List ValidatedEntity) :
    ∀ x ∈ l, pyLower x.name ∈ seen ∨
      ∃ v ∈ dedupByName seen l, pyLower v.name = pyLower x.name := by
  induction l generalizing seen with
  | nil => simp
  | cons e rest ih =>
    intro x hx
    rw [dedupByName]
    split_ifs with hmem
    · rcases List.mem_cons.mp hx with rfl | hx'
      · exact Or.inl hmem
      · exact ih seen x hx'
    · rcases List.mem_cons.mp hx with rfl | hx'
      · exact Or.inr ⟨x, List.mem_cons_self _ _, rfl⟩
      · rcases ih (pyLower e.name :: seen) x hx' with hmem' | ⟨v, hv, heq⟩
        · rcases List.mem_cons.mp hmem' with heq' | hseen
          · exact Or.inr ⟨e, List.mem_cons_self _ _, heq'.symm⟩
          · exact Or.inl hseen
        · exact Or.inr ⟨v, List.mem_cons_of_mem _ hv, heq⟩

/-- C6: entity post-processing discards entries with missing, empty,
too-short, purely numeric or purely punctuation names; normalizes `type`
and `sentiment` to lowercase, forcing `sentiment` into
\x7bpositive, negative, neutral\x7d; and deduplicates case-insensitively by
name, keeping first-seen order (the output is a sublist of the validated
entries) and first-seen original casing — `"Apple"` followed by `"apple"`
collapses to the single entity `"Apple"`. -/
theorem entity_postprocessing (es : List RawEntity) :
    (∀ e v, validateEntity e = some v →
      (∀ n, e.name = some n → v.name = pyStrip n) ∧
      v.name ≠ [] ∧ pyIsDigit v.name = false ∧ isPunctOnly v.name = false ∧
      v.type = pyLower (e.type.getD (str "misc")) ∧
      (v.sentiment = str "positive" ∨ v.sentiment = str "negative" ∨
        v.sentiment = str "neutral")) ∧
    (∀ e : RawEntity, e.name = none → validateEntity e = none) ∧
    (∀ (e : RawEntity) (n : Str), e.name = some n →
      pyStrip n = [] ∨ pyIsDigit (pyStrip n) = true ∨
        isPunctOnly (pyStrip n) = true →
      validateEntity e = none) ∧
    ((_validate_entities es).map fun v => pyLower v.name).Nodup ∧
    (_validate_entities es).Sublist (es.filterMap validateEntity) ∧
    (∀ e ∈ es.filterMap validateEntity, ∃ v ∈ _validate_entities es,
      pyLower v.name = pyLower e.name) ∧
    _validate_entities
        [{ name := some (str "Apple"), type := some (str "org"),
           sentiment := some (str "neutral"), bias := none, score := some 1 },
         { name := some (str "apple"), type := some (str "org"),
           sentiment := some (str "neutral"), bias := none, score := some 1 }] =
      [{ name := str "Apple", type := str "org", sentiment := str "neutral",
         bias := none, score := 1 }] := by
  refine ⟨fun e v h => validateEntity_props h,
    fun e h => validateEntity_name_none h,
    fun e n hn hbad => validateEntity_discards hn hbad,
    (dedupByName_spec [] _).1,
    dedupByName_sublist [] _,
    ?_, by decide⟩
  intro e he
  rcases dedupByName_covers [] (es.filterMap validateEntity) e he with h | h
  · cases h
  · exact h

end NewsPulse
